import Mathlib

/-!
Verification of the bytecode-compiler stage of the waiacig repository.

The source under scrutiny is the compiler package: a `Compiler` state holding
an instructions buffer and a constant pool, a `NewCompiler` constructor that
initialises both to empty, a `Compile` method over AST nodes, and a
`Bytecode` accessor returning the accumulated pair.  In the source, the body
of `Compile` is literally `return nil`: it reports no error and performs no
mutation of the receiver.  The embedding below renders that faithfully as
explicit state passing; the AST, byte-sequence and runtime-object types live
in packages not present in the source tree and are modelled from the spec.
-/

/-- Modelled from the spec: the code package (not under src/) defines
`Instructions` as a flat, ordered byte sequence; bytes are modelled as
natural numbers. -/
abbrev Instructions := List Nat

/-- Modelled from the spec: the object package (not under src/) defines the
tagged runtime values that can appear in the constant pool — integers,
strings, and compiled-function objects wrapping their own private
instruction sequence. -/
inductive Object where
  | integer : Int → Object
  | str : String → Object
  | compiledFunction : List Nat → Object
deriving DecidableEq, Repr

/-- Modelled from the spec: the ast package (not under src/) — the AST node
kinds enumerated by the spec's traversal rules: program root, expression
statement, integer/string/boolean literals, unary (prefix-operator) and
binary (infix-operator) expressions, conditionals with optional alternative
block, identifier references, let statements, array literals, hash literals
as key/value pair lists, index expressions, function literals with parameter
names and a body block, call expressions, and return statements. -/
inductive Node where
  | program : List Node → Node
  | exprStmt : Node → Node
  | intLit : Int → Node
  | strLit : String → Node
  | boolLit : Bool → Node
  | unaryExpr : String → Node → Node
  | binaryExpr : String → Node → Node → Node
  | ifExpr : Node → List Node → Option (List Node) → Node
  | ident : String → Node
  | letStmt : String → Node → Node
  | arrayLit : List Node → Node
  | hashLit : List (Node × Node) → Node
  | indexExpr : Node → Node → Node
  | funcLit : List String → List Node → Node
  | callExpr : Node → List Node → Node
  | returnStmt : Option Node → Node

/-- The compiler state from the source: an instructions buffer and a
constant pool (both initialised empty by `NewCompiler`). -/
structure Compiler where
  instructions : Instructions
  constants : List Object
deriving DecidableEq

/-- `NewCompiler` from the source: fresh instance with empty instructions
and an empty constant pool. -/
def NewCompiler : Compiler :=
  { instructions := [], constants := [] }

/-- `Compile` from the source.  The method body is literally `return nil`:
no error is ever reported and the receiver is not mutated.  Go's pointer
receiver and `error` result become explicit state passing here: the result
is the pair (returned error, compiler state after the call). -/
def Compiler.Compile (c : Compiler) (_node : Node) : Option String × Compiler :=
  (none, c)

/-- The `Bytecode` artifact from the source: the `(Instructions, Constants)`
pair handed to the virtual machine. -/
structure Bytecode where
  Instructions : List Nat
  Constants : List Object
deriving DecidableEq

/-- The `Bytecode()` accessor from the source: reads back the compiler's
accumulated instructions and constants. -/
def Compiler.Bytecode (c : Compiler) : Bytecode :=
  { Instructions := c.instructions, Constants := c.constants }

/-- The idiom of the repository's test harness: create a fresh compiler via
`NewCompiler`, run `Compile` on the program node, read back `Bytecode()`. -/
def compileProgram (n : Node) : Bytecode :=
  ((NewCompiler.Compile n).2).Bytecode

/-- A sequence of `Compile` calls on one compiler instance, threading the
state left to right. -/
def compileSeq (c : Compiler) (nodes : List Node) : Compiler :=
  nodes.foldl (fun acc n => (acc.Compile n).2) c

/-- AST of the program `1 + 2` (one standalone expression statement). -/
def progOnePlusTwo : Node :=
  Node.program [Node.exprStmt (Node.binaryExpr "+" (Node.intLit 1) (Node.intLit 2))]

/-- AST of the program `1 < 2` (one standalone expression statement). -/
def progOneLessTwo : Node :=
  Node.program [Node.exprStmt (Node.binaryExpr "<" (Node.intLit 1) (Node.intLit 2))]

/-- AST of the program `if (true) { 10 }; 3333;`. -/
def progIfNoElse : Node :=
  Node.program
    [Node.exprStmt (Node.ifExpr (Node.boolLit true) [Node.exprStmt (Node.intLit 10)] none),
     Node.exprStmt (Node.intLit 3333)]

/-- AST of the program `let one = 1; one;`. -/
def progLetOne : Node :=
  Node.program
    [Node.letStmt "one" (Node.intLit 1),
     Node.exprStmt (Node.ident "one")]

/-- AST of the program `{1: 2, 3: 4, 5: 6}` (one expression statement). -/
def progHashLit : Node :=
  Node.program
    [Node.exprStmt (Node.hashLit
      [(Node.intLit 1, Node.intLit 2),
       (Node.intLit 3, Node.intLit 4),
       (Node.intLit 5, Node.intLit 6)])]

/-- AST of the program `fn() { }` (empty-body function literal statement). -/
def progEmptyFn : Node :=
  Node.program [Node.exprStmt (Node.funcLit [] [])]

/-- AST of the program `foobar;` — a reference to a never-defined name. -/
def progUndefinedIdent : Node :=
  Node.program [Node.exprStmt (Node.ident "foobar")]

theorem compileSeq_eq_self (c : Compiler) (nodes : List Node) :
    compileSeq c nodes = c := by
  induction nodes generalizing c with
  | nil => rfl
  | cons n ns ih => exact ih c

/-- C1: the claim says compiling the standalone expression statement
`1 + 2` succeeds with constants `[1, 2]` and the nonempty instruction
sequence push-const(0), push-const(1), add, pop.  The source's `Compile`
is a no-op, so the artifact at this input is completely empty: in
particular its constant pool is not `[1, 2]`.  This contradicts the
repository's own test `TestIntegerArithmetic`. -/
theorem c1_one_plus_two_compiles_to_nothing :
    (compileProgram progOnePlusTwo).Instructions = [] ∧
    (compileProgram progOnePlusTwo).Constants = [] ∧
    (compileProgram progOnePlusTwo).Constants ≠ [Object.integer 1, Object.integer 2] := by
  refine ⟨rfl, rfl, ?_⟩
  decide

/-- C2: the claim says compiling `1 < 2` yields constants `[2, 1]` (operand
order swapped) and a greater-than instruction sequence.  The source's
`Compile` is a no-op, so the artifact is empty: the constant pool is not
`[2, 1]`.  This contradicts the repository's own test
`TestBooleanExpressions`. -/
theorem c2_less_than_compiles_to_nothing :
    (compileProgram progOneLessTwo).Instructions = [] ∧
    (compileProgram progOneLessTwo).Constants = [] ∧
    (compileProgram progOneLessTwo).Constants ≠ [Object.integer 2, Object.integer 1] := by
  refine ⟨rfl, rfl, ?_⟩
  decide

/-- C3: the claim says compiling `if (true) { 10 }; 3333;` yields constants
`[10, 3333]` and an eight-instruction sequence with patched jump targets
10 and 11.  The source's `Compile` is a no-op, so the artifact is empty:
the constant pool is not `[10, 3333]`.  This contradicts the repository's
own test `TestConditionals`. -/
theorem c3_conditional_compiles_to_nothing :
    (compileProgram progIfNoElse).Instructions = [] ∧
    (compileProgram progIfNoElse).Constants = [] ∧
    (compileProgram progIfNoElse).Constants ≠ [Object.integer 10, Object.integer 3333] := by
  refine ⟨rfl, rfl, ?_⟩
  decide

/-- C4: the claim says compiling `let one = 1; one;` yields constants `[1]`
and the sequence push-const(0), set-global(0), get-global(0), pop.  The
source's `Compile` is a no-op, so the artifact is empty: the constant pool
is not `[1]`.  This contradicts the repository's own test
`TestGlobalLetStatements`. -/
theorem c4_let_compiles_to_nothing :
    (compileProgram progLetOne).Instructions = [] ∧
    (compileProgram progLetOne).Constants = [] ∧
    (compileProgram progLetOne).Constants ≠ [Object.integer 1] := by
  refine ⟨rfl, rfl, ?_⟩
  decide

/-- C5: the claim says compiling `{1: 2, 3: 4, 5: 6}` yields constants
`[1, 2, 3, 4, 5, 6]`, six push-const instructions, hash-build(6) and pop.
The source's `Compile` is a no-op, so the artifact is empty: the constant
pool is not the claimed six-element sequence.  This contradicts the
repository's own test `TestHashLiterals`. -/
theorem c5_hash_literal_compiles_to_nothing :
    (compileProgram progHashLit).Instructions = [] ∧
    (compileProgram progHashLit).Constants = [] ∧
    (compileProgram progHashLit).Constants ≠
      [Object.integer 1, Object.integer 2, Object.integer 3,
       Object.integer 4, Object.integer 5, Object.integer 6] := by
  refine ⟨rfl, rfl, ?_⟩
  decide

/-- C6: the claim says compiling `fn() { }` stores exactly one constant, a
compiled-function object whose body is `[return-without-value]`.  The
source's `Compile` is a no-op, so the constant pool is empty — it holds no
compiled-function constant at all (its length is 0, not 1).  This
contradicts the repository's own test `TestFunctionsWithoutReturnValue`. -/
theorem c6_empty_fn_compiles_to_nothing :
    (compileProgram progEmptyFn).Instructions = [] ∧
    (compileProgram progEmptyFn).Constants = [] ∧
    (compileProgram progEmptyFn).Constants.length ≠ 1 := by
  refine ⟨rfl, rfl, ?_⟩
  decide

/-- C7: the claim says compiling a program that references a never-defined
identifier returns an undefined-identifier compile error.  The source's
`Compile` returns nil unconditionally, so at the input `foobar;` no error
is reported and the empty artifact is produced as if compilation
succeeded. -/
theorem c7_undefined_identifier_reports_no_error :
    (NewCompiler.Compile progUndefinedIdent).1 = none ∧
    (compileProgram progUndefinedIdent).Instructions = [] := by
  exact ⟨rfl, rfl⟩

/-- C8: compiling the same AST with two independently created fresh
compiler instances (both obtained from `NewCompiler`) produces identical
`Bytecode` artifacts — identical instruction byte sequences and identical
constant sequences.  With the source's no-op `Compile`, both artifacts are
the empty pair, so the idempotence claim holds. -/
theorem c8_fresh_instances_byte_identical (c₁ c₂ : Compiler) (n : Node)
    (h₁ : c₁ = NewCompiler) (h₂ : c₂ = NewCompiler) :
    ((c₁.Compile n).2).Bytecode.Instructions = ((c₂.Compile n).2).Bytecode.Instructions ∧
    ((c₁.Compile n).2).Bytecode.Constants = ((c₂.Compile n).2).Bytecode.Constants := by
  subst h₁
  subst h₂
  exact ⟨rfl, rfl⟩

/-- Witness for C8 at the concrete program `1 + 2`. -/
theorem c8_fresh_instances_byte_identical_witness :
    NewCompiler = NewCompiler ∧ NewCompiler = NewCompiler ∧
    (((NewCompiler.Compile progOnePlusTwo).2).Bytecode.Instructions =
      ((NewCompiler.Compile progOnePlusTwo).2).Bytecode.Instructions ∧
     ((NewCompiler.Compile progOnePlusTwo).2).Bytecode.Constants =
      ((NewCompiler.Compile progOnePlusTwo).2).Bytecode.Constants) :=
  ⟨rfl, rfl, c8_fresh_instances_byte_identical NewCompiler NewCompiler progOnePlusTwo rfl rfl⟩

/-- C9: for every compiler state and every AST node of any kind, `Compile`
returns nil — it never reports any error, including for nodes the spec's
error taxonomy says must fail compilation. -/
theorem c9_compile_never_errors (c : Compiler) (n : Node) :
    (c.Compile n).1 = none :=
  rfl

/-- C10: `Compile` leaves the compiler state completely unchanged, and
after any sequence of `Compile` calls on a fresh `NewCompiler` instance,
`Bytecode()` returns empty instructions and an empty constant pool. -/
theorem c10_compile_leaves_state_empty (nodes : List Node) :
    (∀ (c : Compiler) (n : Node), (c.Compile n).2 = c) ∧
    (compileSeq NewCompiler nodes).Bytecode.Instructions = [] ∧
    (compileSeq NewCompiler nodes).Bytecode.Constants = [] := by
  refine ⟨fun c n => rfl, ?_, ?_⟩ <;>
    rw [compileSeq_eq_self] <;> rfl
